import Mathlib

/-!
Shallow embedding of the File-to-Oracle ETL pipeline (`src/app.py`) and
verification of its specification claims.

The program is a Streamlit app that reads a CSV/Excel upload into a pandas
DataFrame, sanitizes the column names, infers Oracle column types, and loads
the data into an Oracle table (optionally creating the table first).

Modelling conventions:
  * Python strings are lists of characters (`List Char`), wrapped in Lean
    `String`s at the interface.  `str.upper`, `str.strip` and the regex
    character class `[A-Z0-9_]` are modelled at ASCII code-point level.
  * pandas DataFrames are a list of (column name, dtype) pairs plus rows of
    cells; cell scalars are an inductive `Cell` with distinct constructors for
    the missing-value marker (NaN/NaT) and Python `None`.
  * The Oracle connection is modelled by an environment recording the outcome
    of each external call; the upload trigger produces a trace of observable
    events (SQL executions, commits, UI messages, log writes).
-/

namespace ETL

/-! ## Identifier sanitizer (`sanitize_identifier`, src/app.py lines 42-47) -/

/-- `MAX_IDENTIFIER_LEN = 30` from src/app.py line 40. -/
def MAX_IDENTIFIER_LEN : Nat := 30

/-- Membership in the regex character class `[A-Z0-9_]` (code points 65-90,
48-57, 95), the class kept by `re.sub(r"[^A-Z0-9_]", "_", name)`. -/
def isAllowedChar (c : Char) : Bool :=
  decide ((65 ≤ c.toNat ∧ c.toNat ≤ 90) ∨ (48 ≤ c.toNat ∧ c.toNat ≤ 57) ∨ c.toNat = 95)

/-- ASCII decimal digit, the `\d` test of `re.match(r"^\d", name)` (by the
time this test runs every character is in `[A-Z0-9_]`, so only `0-9` can
match). -/
def isDigitChar (c : Char) : Bool :=
  decide (48 ≤ c.toNat ∧ c.toNat ≤ 57)

/-- Whitespace stripped by Python `str.strip()` (ASCII model: space, tab,
newline, carriage return, vertical tab, form feed). -/
def isPySpace (c : Char) : Bool :=
  decide (c.toNat = 32 ∨ c.toNat = 9 ∨ c.toNat = 10 ∨ c.toNat = 13 ∨ c.toNat = 11 ∨ c.toNat = 12)

/-- Python `str.upper()` on one character (ASCII model: map `a-z` to `A-Z`). -/
def pyUpperChar (c : Char) : Char :=
  if 97 ≤ c.toNat ∧ c.toNat ≤ 122 then Char.ofNat (c.toNat - 32) else c

/-- Python `str.strip()`: drop leading and trailing whitespace. -/
def pyStrip (l : List Char) : List Char :=
  ((l.dropWhile isPySpace).reverse.dropWhile isPySpace).reverse

/-- `re.sub(r"[^A-Z0-9_]", "_", name)`: replace every character outside the
class with an underscore. -/
def replaceDisallowed (l : List Char) : List Char :=
  l.map (fun c => if isAllowedChar c then c else '_')

/-- `if re.match(r"^\d", name): name = "_" + name`. -/
def guardLeadingDigit : List Char → List Char
  | [] => []
  | c :: t => if isDigitChar c then '_' :: (c :: t) else c :: t

/-- Core of `sanitize_identifier` on character lists:
strip, uppercase, replace disallowed characters, guard a leading digit,
truncate to `MAX_IDENTIFIER_LEN`. -/
def sanitizeCore (l : List Char) : List Char :=
  (guardLeadingDigit (replaceDisallowed ((pyStrip l).map pyUpperChar))).take MAX_IDENTIFIER_LEN

/-- `sanitize_identifier` (src/app.py lines 42-47). -/
def sanitize_identifier (s : String) : String :=
  String.mk (sanitizeCore s.data)

/-! ### Regex-pattern predicates for the spec's output guarantees -/

/-- The pattern `^[A-Z0-9_]*$`: every character is in the class. -/
def matchesUpperSnake (s : String) : Bool :=
  s.data.all isAllowedChar

/-- The pattern `^[A-Z_][A-Z0-9_]{0,29}$`: nonempty, first character an
uppercase letter or underscore (in the class and not a digit), at most 30
characters in total, all in the class. -/
def matchesOracleIdent (s : String) : Bool :=
  match s.data with
  | [] => false
  | c :: rest =>
    isAllowedChar c && !isDigitChar c && rest.all isAllowedChar && decide (rest.length ≤ 29)

/-! ## pandas model: dtypes, cells, DataFrames -/

/-- The pandas column dtypes this program distinguishes. -/
inductive Dtype
  | int64
  | float64
  | datetime64
  | boolDt
  | objectDt
  deriving DecidableEq

/-- `pd.api.types.is_integer_dtype`. -/
def is_integer_dtype : Dtype → Bool
  | .int64 => true
  | _ => false

/-- `pd.api.types.is_float_dtype`. -/
def is_float_dtype : Dtype → Bool
  | .float64 => true
  | _ => false

/-- `pd.api.types.is_datetime64_any_dtype`. -/
def is_datetime64_any_dtype : Dtype → Bool
  | .datetime64 => true
  | _ => false

/-- A scalar cell of a DataFrame.  `nanCell` is the missing-value marker
(NaN/NaT); `noneCell` is Python `None`.  Float payloads are carried as raw
bit patterns: no claim inspects float arithmetic. -/
inductive Cell
  | nanCell
  | noneCell
  | intCell (n : Int)
  | floatCell (bits : Nat)
  | strCell (s : String)
  | boolCell (b : Bool)
  | tsCell (t : Int)
  deriving DecidableEq

/-- `pd.notnull` on one scalar: false exactly on the missing marker and on
`None`. -/
def notnullCell : Cell → Bool
  | .nanCell => false
  | .noneCell => false
  | _ => true

/-- One cell of `df.where(pd.notnull(df), None)`: keep the scalar where the
condition holds, else replace it by Python `None`. -/
def whereNotnullCell (c : Cell) : Cell :=
  if notnullCell c then c else Cell.noneCell

/-- A pandas DataFrame: ordered (column name, dtype) pairs and rows of
cells, every row as long as the column list. -/
structure DataFrame where
  cols : List (String × Dtype)
  rows : List (List Cell)
  deriving DecidableEq

/-- `df.columns` as a list of names. -/
def DataFrame.columns (df : DataFrame) : List String :=
  df.cols.map Prod.fst

/-- `df.where(pd.notnull(df), None)` (src/app.py line 93). -/
def DataFrame.whereNotnull (df : DataFrame) : DataFrame :=
  { df with rows := df.rows.map (List.map whereNotnullCell) }

/-- The effect of `df.columns = [sanitize_identifier(c) for c in df.columns]`
(src/app.py line 51): names are rewritten in order, dtypes and rows kept. -/
def renameSanitized (df : DataFrame) : DataFrame :=
  { df with cols := df.cols.map (fun p => (sanitize_identifier p.1, p.2)) }

/-! ## Type inference and SQL text builders -/

/-- `infer_oracle_type` (src/app.py lines 54-61), a function of the column's
dtype alone. -/
def infer_oracle_type (d : Dtype) : String :=
  if is_integer_dtype d then "NUMBER"
  else if is_float_dtype d then "NUMBER"
  else if is_datetime64_any_dtype d then "TIMESTAMP"
  else "VARCHAR2(4000)"

/-- `f"{schema}.{table}" if schema else table` (src/app.py lines 68 and 96):
an empty schema string is falsy in Python, giving the bare table name. -/
def qualifiedName (schema table : String) : String :=
  if schema = "" then table else schema ++ "." ++ table

/-- `build_create_table_sql` (src/app.py lines 63-69). -/
def build_create_table_sql (schema table : String) (df : DataFrame) : String :=
  "CREATE TABLE " ++ qualifiedName schema table ++ " (\n"
    ++ String.intercalate ",\n" (df.cols.map (fun p => p.1 ++ " " ++ infer_oracle_type p.2))
    ++ "\n)"

/-- Python `str.upper()` (ASCII model), for
`schema.upper()` / `conn.username.upper()`. -/
def pyUpperStr (s : String) : String :=
  String.mk (s.data.map pyUpperChar)

/-- `owner = schema.upper() if schema else conn.username.upper()`
(src/app.py line 78). -/
def resolveOwner (schema username : String) : String :=
  if schema = "" then pyUpperStr username else pyUpperStr schema

/-- The bind values of the catalog query of `table_exists`
(src/app.py lines 77-85): the resolved owner and the table name. -/
structure CatalogQuery where
  owner : String
  tname : String
  deriving DecidableEq

/-- The catalog query `table_exists` executes against `ALL_TABLES`. -/
def table_exists_query (schema username table : String) : CatalogQuery :=
  { owner := resolveOwner schema username, tname := table }

/-- The single batched statement prepared by `insert_dataframe`
(src/app.py lines 92-101): the DML text and the row batch passed to one
`executemany` call. -/
structure InsertPlan where
  sql : String
  batch : List (List Cell)
  deriving DecidableEq

/-- `insert_dataframe` (src/app.py lines 92-101). -/
def insert_dataframe (schema table : String) (df : DataFrame) : InsertPlan :=
  let dfn := df.whereNotnull
  let cols := dfn.columns
  let binds := String.intercalate "," ((List.range cols.length).map (fun i => ":" ++ toString (i + 1)))
  { sql := "INSERT INTO " ++ qualifiedName schema table ++ " (" ++ String.intercalate "," cols
      ++ ") VALUES (" ++ binds ++ ")"
    batch := dfn.rows }

/-! ## A store of DataFrame objects, for the frame claim on
`sanitize_columns` -/

/-- An empty DataFrame, used as lookup default. -/
def emptyDF : DataFrame :=
  { cols := [], rows := [] }

/-- A heap of DataFrame objects; references are indices into the store. -/
abbrev DFStore := List DataFrame

/-- `df.copy()` (src/app.py line 50): allocate a fresh DataFrame equal to the
referenced one; returns the new store and the reference of the copy. -/
def copyDF (s : DFStore) (r : Nat) : DFStore × Nat :=
  (s ++ [s.getD r emptyDF], s.length)

/-- `sanitize_columns` (src/app.py lines 49-52) on the store: copy the
argument, assign the sanitized name list to the copy's `columns`, and return
the reference of the copy. -/
def sanitize_columns (s : DFStore) (r : Nat) : DFStore × Nat :=
  let c := copyDF s r
  (c.1.set c.2 (renameSanitized (c.1.getD c.2 emptyDF)), c.2)

/-! ## The upload trigger (src/app.py lines 136-155) -/

/-- The error taxonomy of spec section 7: connection, catalog, DDL, insert
and parse failures. -/
inductive ErrKind
  | connErr
  | catalogErr
  | schemaErr
  | insertErr
  | parseErr
  deriving DecidableEq

/-- A raised Python exception: its kind and its `str(e)` form. -/
structure PyErr where
  kind : ErrKind
  msg : String
  deriving DecidableEq

/-- Outcomes of the external database calls one upload attempt can make. -/
structure OracleEnv where
  connRes : Except PyErr Unit
  username : String
  existsRes : Except PyErr Bool
  ddlRes : Except PyErr Unit
  ddlCommitRes : Except PyErr Unit
  insertRes : Except PyErr Unit
  insCommitRes : Except PyErr Unit

/-- Observable events of one upload attempt. -/
inductive Ev
  | connectEv
  | catalogEv (owner tname : String)
  | execSqlEv (sql : String)
  | execManyEv (sql : String) (rows : List (List Cell))
  | commitEv
  | successEv (msg : String)
  | errorBoxEv (msg : String)
  | logExcEv (msg : String)
  | stopEv
  deriving DecidableEq

/-- Control flow of the try block: ran to the end, raised an exception, or
was ended by `st.stop()`. -/
inductive Flow
  | ok
  | raised (e : PyErr)
  | stopped
  deriving DecidableEq

/-- The create-table branch (src/app.py lines 141-147), reached when the
table does not exist: report and stop when create-if-missing is off, else
execute the generated DDL and commit it (a commit event is recorded only
when the commit succeeds). -/
def createPhase (env : OracleEnv) (schema table : String) (df : DataFrame)
    (createIfMissing : Bool) : List Ev × Flow :=
  if createIfMissing = false then
    ([Ev.errorBoxEv "Table does not exist", Ev.stopEv], Flow.stopped)
  else
    match env.ddlRes with
    | .error e => ([Ev.execSqlEv (build_create_table_sql schema table df)], Flow.raised e)
    | .ok _ =>
      match env.ddlCommitRes with
      | .error e => ([Ev.execSqlEv (build_create_table_sql schema table df)], Flow.raised e)
      | .ok _ =>
        ([Ev.execSqlEv (build_create_table_sql schema table df), Ev.commitEv,
          Ev.successEv "Table created"], Flow.ok)

/-- The insert phase (src/app.py lines 149-151): one `executemany` batch and
its commit. -/
def insertPhase (env : OracleEnv) (schema table : String) (df : DataFrame) :
    List Ev × Flow :=
  match env.insertRes with
  | .error e =>
    ([Ev.execManyEv (insert_dataframe schema table df).sql (insert_dataframe schema table df).batch],
      Flow.raised e)
  | .ok _ =>
    match env.insCommitRes with
    | .error e =>
      ([Ev.execManyEv (insert_dataframe schema table df).sql (insert_dataframe schema table df).batch],
        Flow.raised e)
    | .ok _ =>
      ([Ev.execManyEv (insert_dataframe schema table df).sql (insert_dataframe schema table df).batch,
        Ev.commitEv, Ev.successEv "Data inserted successfully ✅"], Flow.ok)

/-- The body of the `try` block of the upload trigger (src/app.py
lines 138-151): connect, check existence, maybe create, then insert. -/
def tryBody (env : OracleEnv) (schema table : String) (df : DataFrame)
    (createIfMissing : Bool) : List Ev × Flow :=
  match env.connRes with
  | .error e => ([], Flow.raised e)
  | .ok _ =>
    let q := table_exists_query schema env.username table
    let evs := [Ev.connectEv, Ev.catalogEv q.owner q.tname]
    match env.existsRes with
    | .error e => (evs, Flow.raised e)
    | .ok ex =>
      let step := if ex then ([], Flow.ok)
                  else createPhase env schema table df createIfMissing
      match step.2 with
      | Flow.ok =>
        let ins := insertPhase env schema table df
        (evs ++ step.1 ++ ins.1, ins.2)
      | f => (evs ++ step.1, f)

/-- The upload trigger (src/app.py lines 136-155): run the try body; a
raised exception is caught by the single `except Exception` handler, logged
via `logger.exception("Upload failed")` and surfaced as `st.error(str(e))`;
`st.stop()` ends the script run. -/
def runUpload (env : OracleEnv) (schema table : String) (df : DataFrame)
    (createIfMissing : Bool) : List Ev :=
  let body := tryBody env schema table df createIfMissing
  match body.2 with
  | Flow.raised e => body.1 ++ [Ev.logExcEv "Upload failed", Ev.errorBoxEv e.msg]
  | _ => body.1

/-- Event classifiers and a counter over traces. -/
def isDDLEv : Ev → Bool
  | .execSqlEv _ => true
  | _ => false

/-- Recognizes the batched-insert event. -/
def isInsertEv : Ev → Bool
  | .execManyEv _ _ => true
  | _ => false

/-- Recognizes a successful commit event. -/
def isCommitEv : Ev → Bool
  | .commitEv => true
  | _ => false

/-- Recognizes the connection-open event. -/
def isConnectEv : Ev → Bool
  | .connectEv => true
  | _ => false

/-- Recognizes the catalog-query event. -/
def isCatalogEv : Ev → Bool
  | .catalogEv _ _ => true
  | _ => false

/-- Recognizes an `st.error` event. -/
def isErrorBoxEv : Ev → Bool
  | .errorBoxEv _ => true
  | _ => false

/-- Number of events of a given class in a trace. -/
def countEv (p : Ev → Bool) (t : List Ev) : Nat :=
  (t.filter p).length

/-! ## Concrete fixtures used by witnesses and counterexamples -/

/-- A two-column, one-row DataFrame. -/
def dfSample : DataFrame :=
  { cols := [("ID", Dtype.int64), ("NAME", Dtype.objectDt)],
    rows := [[Cell.intCell 1, Cell.strCell "A"]] }

/-- An environment in which every external call succeeds and the destination
table already exists. -/
def envTableExists : OracleEnv :=
  { connRes := .ok (), username := "scott", existsRes := .ok true,
    ddlRes := .ok (), ddlCommitRes := .ok (), insertRes := .ok (),
    insCommitRes := .ok () }

/-- An environment in which every external call succeeds and the destination
table does not exist. -/
def envTableMissing : OracleEnv :=
  { connRes := .ok (), username := "scott", existsRes := .ok false,
    ddlRes := .ok (), ddlCommitRes := .ok (), insertRes := .ok (),
    insCommitRes := .ok () }

/-- An environment in which the batched insert raises an `InsertError`. -/
def envInsertFails : OracleEnv :=
  { connRes := .ok (), username := "scott", existsRes := .ok true,
    ddlRes := .ok (), ddlCommitRes := .ok (),
    insertRes := .error { kind := ErrKind.insertErr, msg := "ORA-01400: cannot insert NULL" },
    insCommitRes := .ok () }

/-! ### Character-level lemmas -/

theorem allowed_not_space {c : Char} (h : isAllowedChar c = true) : isPySpace c = false := by
  simp only [isAllowedChar, decide_eq_true_eq] at h
  simp only [isPySpace, decide_eq_false_iff_not]
  omega

theorem allowed_pyUpper_fix {c : Char} (h : isAllowedChar c = true) : pyUpperChar c = c := by
  simp only [isAllowedChar, decide_eq_true_eq] at h
  unfold pyUpperChar
  rw [if_neg]
  omega

theorem allowed_replace_fix {c : Char} (h : isAllowedChar c = true) :
    (if isAllowedChar c then c else '_') = c := by
  rw [if_pos h]

theorem underscore_allowed : isAllowedChar '_' = true := by decide

theorem underscore_not_digit : isDigitChar '_' = false := by decide

/-! ### List helpers -/

theorem map_fix_of_forall {α : Type} (f : α → α) (l : List α)
    (h : ∀ c ∈ l, f c = c) : l.map f = l := by
  induction l with
  | nil => rfl
  | cons a t ih =>
    simp only [List.map_cons, List.cons.injEq]
    exact ⟨h a (List.mem_cons_self a t), ih (fun c hc => h c (List.mem_cons_of_mem a hc))⟩

theorem dropWhile_eq_self_of_forall {α : Type} (p : α → Bool) (l : List α)
    (h : ∀ c ∈ l, p c = false) : l.dropWhile p = l := by
  cases l with
  | nil => rfl
  | cons a t =>
    rw [List.dropWhile_cons_of_neg]
    simp [h a (List.mem_cons_self a t)]

/-! ### Output shape of the sanitizer -/

theorem replaceDisallowed_all_allowed (l : List Char) :
    ∀ c ∈ replaceDisallowed l, isAllowedChar c = true := by
  intro c hc
  simp only [replaceDisallowed, List.mem_map] at hc
  obtain ⟨a, _, ha⟩ := hc
  by_cases h : isAllowedChar a = true
  · rw [← ha, if_pos h]; exact h
  · rw [← ha, if_neg h]; exact underscore_allowed

theorem guardLeadingDigit_all_allowed (l : List Char)
    (h : ∀ c ∈ l, isAllowedChar c = true) :
    ∀ c ∈ guardLeadingDigit l, isAllowedChar c = true := by
  intro c hc
  cases l with
  | nil => simp [guardLeadingDigit] at hc
  | cons a t =>
    simp only [guardLeadingDigit] at hc
    by_cases hd : isDigitChar a = true
    · rw [if_pos hd] at hc
      rcases List.mem_cons.mp hc with h1 | h2
      · rw [h1]; exact underscore_allowed
      · exact h c h2
    · rw [if_neg hd] at hc
      exact h c hc

theorem sanitizeCore_all_allowed (l : List Char) :
    ∀ c ∈ sanitizeCore l, isAllowedChar c = true := by
  intro c hc
  unfold sanitizeCore at hc
  exact guardLeadingDigit_all_allowed _
    (replaceDisallowed_all_allowed _) c (List.mem_of_mem_take hc)

theorem sanitizeCore_head_not_digit (l : List Char) {c : Char} {rest : List Char}
    (h : sanitizeCore l = c :: rest) : isDigitChar c = false := by
  unfold sanitizeCore at h
  cases hm : replaceDisallowed ((pyStrip l).map pyUpperChar) with
  | nil =>
    rw [hm] at h
    simp [guardLeadingDigit] at h
  | cons a t =>
    rw [hm] at h
    simp only [guardLeadingDigit] at h
    by_cases hd : isDigitChar a = true
    · rw [if_pos hd] at h
      rw [show MAX_IDENTIFIER_LEN = 29 + 1 from rfl, List.take_succ_cons] at h
      have : c = '_' := (List.cons.injEq _ _ _ _ ▸ h).1.symm
      rw [this]; exact underscore_not_digit
    · rw [if_neg hd] at h
      rw [show MAX_IDENTIFIER_LEN = 29 + 1 from rfl, List.take_succ_cons] at h
      have : c = a := (List.cons.injEq _ _ _ _ ▸ h).1.symm
      rw [this]
      exact Bool.not_eq_true _ ▸ hd

theorem sanitizeCore_length_le (l : List Char) :
    (sanitizeCore l).length ≤ MAX_IDENTIFIER_LEN := by
  unfold sanitizeCore
  rw [List.length_take]
  exact min_le_left _ _

/-! ### Idempotence -/

theorem pyStrip_fix {l : List Char} (h : ∀ c ∈ l, isAllowedChar c = true) :
    pyStrip l = l := by
  unfold pyStrip
  rw [dropWhile_eq_self_of_forall _ _ (fun c hc => allowed_not_space (h c hc))]
  rw [dropWhile_eq_self_of_forall _ _
    (fun c hc => allowed_not_space (h c (List.mem_reverse.mp hc)))]
  exact List.reverse_reverse l

theorem map_pyUpper_fix {l : List Char} (h : ∀ c ∈ l, isAllowedChar c = true) :
    l.map pyUpperChar = l :=
  map_fix_of_forall _ _ (fun c hc => allowed_pyUpper_fix (h c hc))

theorem replaceDisallowed_fix {l : List Char} (h : ∀ c ∈ l, isAllowedChar c = true) :
    replaceDisallowed l = l :=
  map_fix_of_forall _ _ (fun c hc => allowed_replace_fix (h c hc))

theorem take_fix_of_le {α : Type} {l : List α} {n : Nat} (h : l.length ≤ n) :
    l.take n = l :=
  List.take_of_length_le h

theorem sanitizeCore_fix {y : List Char}
    (hall : ∀ c ∈ y, isAllowedChar c = true)
    (hhead : ∀ c rest, y = c :: rest → isDigitChar c = false)
    (hlen : y.length ≤ MAX_IDENTIFIER_LEN) :
    sanitizeCore y = y := by
  unfold sanitizeCore
  rw [pyStrip_fix hall, map_pyUpper_fix hall, replaceDisallowed_fix hall]
  cases hy : y with
  | nil => rfl
  | cons c rest =>
    simp only [guardLeadingDigit]
    rw [if_neg (by rw [hhead c rest hy]; simp)]
    rw [← hy]
    exact take_fix_of_le hlen

theorem sanitizeCore_idem (l : List Char) :
    sanitizeCore (sanitizeCore l) = sanitizeCore l :=
  sanitizeCore_fix (sanitizeCore_all_allowed l)
    (fun _ _ h => sanitizeCore_head_not_digit l h)
    (sanitizeCore_length_le l)

/-! ## Claim theorems: the identifier sanitizer -/

/-- Claim C3: for every string input, `sanitize_identifier` returns a string
matching `^[A-Z_][A-Z0-9_]{0,29}$` unless the result is empty; equivalently,
every result matches `^[A-Z0-9_]*$` and a non-empty result does not start
with a digit. -/
theorem C3_sanitize_identifier_output_pattern (s : String) :
    matchesUpperSnake (sanitize_identifier s) = true ∧
    (sanitize_identifier s = "" ∨ matchesOracleIdent (sanitize_identifier s) = true) := by
  constructor
  · unfold matchesUpperSnake
    rw [List.all_eq_true]
    exact fun c hc => sanitizeCore_all_allowed s.data c hc
  · cases hy : sanitizeCore s.data with
    | nil =>
      left
      show String.mk (sanitizeCore s.data) = ""
      rw [hy]
    | cons c rest =>
      right
      have hall : ∀ x ∈ c :: rest, isAllowedChar x = true := by
        rw [← hy]
        exact sanitizeCore_all_allowed s.data
      have hlen : (c :: rest).length ≤ MAX_IDENTIFIER_LEN := by
        rw [← hy]
        exact sanitizeCore_length_le s.data
      have hdata : (sanitize_identifier s).data = c :: rest := hy
      unfold matchesOracleIdent
      rw [hdata]
      simp only [Bool.and_eq_true, Bool.not_eq_true', List.all_eq_true, decide_eq_true_eq]
      refine ⟨⟨⟨hall c (List.mem_cons_self c rest), ?_⟩, ?_⟩, ?_⟩
      · exact sanitizeCore_head_not_digit s.data hy
      · exact fun x hx => hall x (List.mem_cons_of_mem c hx)
      · have : (c :: rest).length = rest.length + 1 := by simp
        rw [this] at hlen
        have h30 : MAX_IDENTIFIER_LEN = 30 := rfl
        omega

/-- Claim C4: `sanitize_identifier` is idempotent, and its result never
exceeds 30 characters. -/
theorem C4_sanitize_identifier_idempotent_bounded (s : String) :
    sanitize_identifier (sanitize_identifier s) = sanitize_identifier s ∧
    (sanitize_identifier s).length ≤ 30 := by
  constructor
  · exact congrArg String.mk (sanitizeCore_idem s.data)
  · show (sanitizeCore s.data).length ≤ 30
    exact sanitizeCore_length_le s.data

/-! ## Claim theorems: type inference and SQL text -/

theorem whereNotnullCell_ne_nan (c : Cell) :
    (whereNotnullCell c != Cell.nanCell) = true := by
  cases c <;> simp [whereNotnullCell, notnullCell]

/-- Claim C5: `infer_oracle_type` applies its checks in order with first
match winning: an integer dtype yields NUMBER; otherwise a float dtype
yields NUMBER; otherwise a datetime dtype yields TIMESTAMP; any remaining
column (text, boolean, mixed/object — including a column holding only nulls,
whose pandas dtype is object) yields VARCHAR2(4000). -/
theorem C5_infer_oracle_type_decision_order (d : Dtype) :
    (is_integer_dtype d = true → infer_oracle_type d = "NUMBER") ∧
    (is_integer_dtype d = false → is_float_dtype d = true →
      infer_oracle_type d = "NUMBER") ∧
    (is_integer_dtype d = false → is_float_dtype d = false →
      is_datetime64_any_dtype d = true → infer_oracle_type d = "TIMESTAMP") ∧
    (is_integer_dtype d = false → is_float_dtype d = false →
      is_datetime64_any_dtype d = false → infer_oracle_type d = "VARCHAR2(4000)") := by
  cases d <;>
    simp [infer_oracle_type, is_integer_dtype, is_float_dtype, is_datetime64_any_dtype]

/-- Witness for claim C5: the decision order evaluated at one dtype of each
branch. -/
theorem C5_infer_oracle_type_decision_order_witness :
    infer_oracle_type Dtype.int64 = "NUMBER" ∧
    infer_oracle_type Dtype.float64 = "NUMBER" ∧
    infer_oracle_type Dtype.datetime64 = "TIMESTAMP" ∧
    infer_oracle_type Dtype.boolDt = "VARCHAR2(4000)" ∧
    infer_oracle_type Dtype.objectDt = "VARCHAR2(4000)" :=
  ⟨(C5_infer_oracle_type_decision_order Dtype.int64).1 rfl,
   (C5_infer_oracle_type_decision_order Dtype.float64).2.1 rfl rfl,
   (C5_infer_oracle_type_decision_order Dtype.datetime64).2.2.1 rfl rfl rfl,
   (C5_infer_oracle_type_decision_order Dtype.boolDt).2.2.2 rfl rfl rfl,
   (C5_infer_oracle_type_decision_order Dtype.objectDt).2.2.2 rfl rfl rfl⟩

/-- Claim C6: the DDL builder produces the literal newline-joined text
`CREATE TABLE [schema.]table (` + newline + the `name type` pairs joined by
`,\n` + newline + `)`; on columns ID NUMBER and NAME VARCHAR2(4000) with
table T and no schema it produces exactly
`CREATE TABLE T (\nID NUMBER,\nNAME VARCHAR2(4000)\n)`. -/
theorem C6_build_create_table_sql_text (schema table : String) (df : DataFrame) :
    build_create_table_sql schema table df
      = "CREATE TABLE " ++ (if schema = "" then table else schema ++ "." ++ table)
        ++ " (\n"
        ++ String.intercalate ",\n" (df.cols.map (fun p => p.1 ++ " " ++ infer_oracle_type p.2))
        ++ "\n)" ∧
    build_create_table_sql "" "T"
        { cols := [("ID", Dtype.int64), ("NAME", Dtype.objectDt)], rows := [] }
      = "CREATE TABLE T (\nID NUMBER,\nNAME VARCHAR2(4000)\n)" := by
  exact ⟨rfl, rfl⟩

/-- Claim C7: the insert operation maps every missing value to the explicit
null marker (`None`), keeps all rows in order as one batch, and generates
exactly the DML text `INSERT INTO [schema.]table (c1,...,cn) VALUES
(:1,...,:n)` with one positional bind per column in column order. -/
theorem C7_insert_dataframe_plan (schema table : String) (df : DataFrame) :
    (insert_dataframe schema table df).batch = df.rows.map (List.map whereNotnullCell) ∧
    ((insert_dataframe schema table df).batch.all
      (fun row => row.all (fun c => c != Cell.nanCell))) = true ∧
    (insert_dataframe schema table df).batch.length = df.rows.length ∧
    (insert_dataframe schema table df).sql
      = "INSERT INTO " ++ (if schema = "" then table else schema ++ "." ++ table)
        ++ " (" ++ String.intercalate "," df.columns ++ ") VALUES ("
        ++ String.intercalate ","
            ((List.range df.columns.length).map (fun i => ":" ++ toString (i + 1)))
        ++ ")" := by
  refine ⟨rfl, ?_, ?_, rfl⟩
  · rw [List.all_eq_true]
    intro row hrow
    rw [List.all_eq_true]
    intro c hc
    have : row ∈ df.rows.map (List.map whereNotnullCell) := hrow
    obtain ⟨r0, _, hr0⟩ := List.mem_map.mp this
    rw [← hr0] at hc
    obtain ⟨c0, _, hc0⟩ := List.mem_map.mp hc
    rw [← hc0]
    exact whereNotnullCell_ne_nan c0
  · simp [insert_dataframe, DataFrame.whereNotnull]

/-- Claim C9: an empty schema string behaves as an absent schema at every
consultation site: the existence check resolves the owner to the upper-cased
connected username, and both the generated CREATE TABLE and INSERT
statements use the bare, unqualified table name. -/
theorem C9_empty_schema_is_absent (username table : String) (df : DataFrame) :
    table_exists_query "" username table
      = { owner := pyUpperStr username, tname := table } ∧
    qualifiedName "" table = table ∧
    build_create_table_sql "" table df
      = "CREATE TABLE " ++ table ++ " (\n"
        ++ String.intercalate ",\n" (df.cols.map (fun p => p.1 ++ " " ++ infer_oracle_type p.2))
        ++ "\n)" ∧
    (insert_dataframe "" table df).sql
      = "INSERT INTO " ++ table ++ " (" ++ String.intercalate "," df.columns
        ++ ") VALUES ("
        ++ String.intercalate ","
            ((List.range df.columns.length).map (fun i => ":" ++ toString (i + 1)))
        ++ ")" := by
  refine ⟨?_, ?_, ?_, ?_⟩ <;>
    simp [table_exists_query, resolveOwner, qualifiedName, build_create_table_sql,
      insert_dataframe, DataFrame.whereNotnull, DataFrame.columns]

/-! ## Claim theorems: the upload trigger -/

theorem insertPhase_counts (env : OracleEnv) (s t : String) (df : DataFrame) :
    countEv isConnectEv (insertPhase env s t df).1 = 0 ∧
    countEv isCatalogEv (insertPhase env s t df).1 = 0 ∧
    countEv isDDLEv (insertPhase env s t df).1 = 0 ∧
    countEv isInsertEv (insertPhase env s t df).1 ≤ 1 ∧
    countEv isErrorBoxEv (insertPhase env s t df).1 = 0 := by
  rcases hir : env.insertRes with e | u
  · simp [insertPhase, hir, countEv, List.filter, isConnectEv, isCatalogEv, isDDLEv,
      isInsertEv, isErrorBoxEv]
  · rcases hic : env.insCommitRes with e | u <;>
      simp [insertPhase, hir, hic, countEv, List.filter, isConnectEv, isCatalogEv,
        isDDLEv, isInsertEv, isErrorBoxEv]

theorem createPhase_counts (env : OracleEnv) (s t : String) (df : DataFrame) (cim : Bool) :
    countEv isConnectEv (createPhase env s t df cim).1 = 0 ∧
    countEv isCatalogEv (createPhase env s t df cim).1 = 0 ∧
    countEv isDDLEv (createPhase env s t df cim).1 ≤ 1 ∧
    countEv isInsertEv (createPhase env s t df cim).1 = 0 ∧
    ((createPhase env s t df cim).2 ≠ Flow.stopped →
      countEv isErrorBoxEv (createPhase env s t df cim).1 = 0) := by
  cases cim
  · simp [createPhase, countEv, List.filter, isConnectEv, isCatalogEv, isDDLEv,
      isInsertEv, isErrorBoxEv]
  · rcases hd : env.ddlRes with e | u
    · simp [createPhase, hd, countEv, List.filter, isConnectEv, isCatalogEv, isDDLEv,
        isInsertEv, isErrorBoxEv]
    · rcases hdc : env.ddlCommitRes with e | u <;>
        simp [createPhase, hd, hdc, countEv, List.filter, isConnectEv, isCatalogEv,
          isDDLEv, isInsertEv, isErrorBoxEv]

theorem countEv_append (p : Ev → Bool) (a b : List Ev) :
    countEv p (a ++ b) = countEv p a + countEv p b := by
  simp [countEv, List.filter_append]

theorem tryBody_shape (env : OracleEnv) (s t : String) (df : DataFrame) (cim : Bool) :
    countEv isConnectEv (tryBody env s t df cim).1 ≤ 1 ∧
    countEv isCatalogEv (tryBody env s t df cim).1 ≤ 1 ∧
    countEv isDDLEv (tryBody env s t df cim).1 ≤ 1 ∧
    countEv isInsertEv (tryBody env s t df cim).1 ≤ 1 ∧
    ((tryBody env s t df cim).2 ≠ Flow.stopped →
      countEv isErrorBoxEv (tryBody env s t df cim).1 = 0) := by
  rcases hcr : env.connRes with e | u
  · simp [tryBody, hcr, countEv, List.filter]
  · rcases her : env.existsRes with e | ex
    · simp [tryBody, hcr, her, countEv, List.filter, isConnectEv, isCatalogEv, isDDLEv,
        isInsertEv, isErrorBoxEv]
    · obtain ⟨i1, i2, i3, i4, i5⟩ := insertPhase_counts env s t df
      obtain ⟨p1, p2, p3, p4, p5⟩ := createPhase_counts env s t df cim
      have hevs : ∀ p : Ev → Bool,
          countEv p [Ev.connectEv, Ev.catalogEv (resolveOwner s env.username) t]
            = countEv p [Ev.connectEv]
              + countEv p [Ev.catalogEv (resolveOwner s env.username) t] :=
        fun p => countEv_append p [Ev.connectEv] [Ev.catalogEv (resolveOwner s env.username) t]
      have e1 : countEv isConnectEv [Ev.connectEv] = 1 := rfl
      have e2 : countEv isCatalogEv [Ev.connectEv] = 0 := rfl
      have e3 : countEv isDDLEv [Ev.connectEv] = 0 := rfl
      have e4 : countEv isInsertEv [Ev.connectEv] = 0 := rfl
      have e5 : countEv isErrorBoxEv [Ev.connectEv] = 0 := rfl
      have f1 : countEv isConnectEv [Ev.catalogEv (resolveOwner s env.username) t] = 0 := rfl
      have f2 : countEv isCatalogEv [Ev.catalogEv (resolveOwner s env.username) t] = 1 := rfl
      have f3 : countEv isDDLEv [Ev.catalogEv (resolveOwner s env.username) t] = 0 := rfl
      have f4 : countEv isInsertEv [Ev.catalogEv (resolveOwner s env.username) t] = 0 := rfl
      have f5 : countEv isErrorBoxEv [Ev.catalogEv (resolveOwner s env.username) t] = 0 := rfl
      cases ex
      · cases hfl : (createPhase env s t df cim).2 with
        | ok =>
          have htb : (tryBody env s t df cim).1
              = [Ev.connectEv, Ev.catalogEv (resolveOwner s env.username) t]
                ++ (createPhase env s t df cim).1 ++ (insertPhase env s t df).1 ∧
              (tryBody env s t df cim).2 = (insertPhase env s t df).2 := by
            rw [tryBody, hcr, her]
            simp only [Bool.false_eq_true, ite_false, table_exists_query]
            rw [hfl]
            exact ⟨rfl, rfl⟩
          rw [htb.1, htb.2]
          simp only [countEv_append, hevs]
          have hcp5 : countEv isErrorBoxEv (createPhase env s t df cim).1 = 0 :=
            p5 (by rw [hfl]; simp)
          refine ⟨by omega, by omega, by omega, by omega, fun _ => by omega⟩
        | raised e =>
          have htb : (tryBody env s t df cim).1
              = [Ev.connectEv, Ev.catalogEv (resolveOwner s env.username) t]
                ++ (createPhase env s t df cim).1 ∧
              (tryBody env s t df cim).2 = Flow.raised e := by
            rw [tryBody, hcr, her]
            simp only [Bool.false_eq_true, ite_false, table_exists_query]
            rw [hfl]
            exact ⟨rfl, rfl⟩
          rw [htb.1, htb.2]
          simp only [countEv_append, hevs]
          have hcp5 : countEv isErrorBoxEv (createPhase env s t df cim).1 = 0 :=
            p5 (by rw [hfl]; simp)
          refine ⟨by omega, by omega, by omega, by omega, fun _ => by omega⟩
        | stopped =>
          have htb : (tryBody env s t df cim).1
              = [Ev.connectEv, Ev.catalogEv (resolveOwner s env.username) t]
                ++ (createPhase env s t df cim).1 ∧
              (tryBody env s t df cim).2 = Flow.stopped := by
            rw [tryBody, hcr, her]
            simp only [Bool.false_eq_true, ite_false, table_exists_query]
            rw [hfl]
            exact ⟨rfl, rfl⟩
          rw [htb.1, htb.2]
          simp only [countEv_append, hevs]
          refine ⟨by omega, by omega, by omega, by omega, fun hne => absurd rfl hne⟩
      · have htb : (tryBody env s t df cim).1
            = [Ev.connectEv, Ev.catalogEv (resolveOwner s env.username) t]
              ++ [] ++ (insertPhase env s t df).1 ∧
            (tryBody env s t df cim).2 = (insertPhase env s t df).2 := by
          rw [tryBody, hcr, her]
          exact ⟨rfl, rfl⟩
        rw [htb.1, htb.2]
        have hnil : ∀ p : Ev → Bool, countEv p [] = 0 := fun _ => rfl
        simp only [countEv_append, hevs, hnil]
        refine ⟨by omega, by omega, by omega, by omega, fun _ => by omega⟩

/-- Claim C2: when the destination table does not exist, create-if-missing
is on, and every external call succeeds, the upload issues exactly one
CREATE TABLE followed by exactly one batched INSERT, with exactly two
commits, the CREATE TABLE commit strictly before the INSERT commit (the
trace lists the DDL, its commit, the batch insert, then its commit, in that
order). -/
theorem C2_create_then_insert_two_commits (env : OracleEnv) (schema table : String)
    (df : DataFrame)
    (hconn : env.connRes = Except.ok ())
    (hex : env.existsRes = Except.ok false)
    (hddl : env.ddlRes = Except.ok ())
    (hdc : env.ddlCommitRes = Except.ok ())
    (hins : env.insertRes = Except.ok ())
    (hic : env.insCommitRes = Except.ok ()) :
    runUpload env schema table df true
      = [Ev.connectEv,
         Ev.catalogEv (resolveOwner schema env.username) table,
         Ev.execSqlEv (build_create_table_sql schema table df),
         Ev.commitEv,
         Ev.successEv "Table created",
         Ev.execManyEv (insert_dataframe schema table df).sql
           (insert_dataframe schema table df).batch,
         Ev.commitEv,
         Ev.successEv "Data inserted successfully ✅"] ∧
    countEv isDDLEv (runUpload env schema table df true) = 1 ∧
    countEv isInsertEv (runUpload env schema table df true) = 1 ∧
    countEv isCommitEv (runUpload env schema table df true) = 2 := by
  have htr : runUpload env schema table df true
      = [Ev.connectEv,
         Ev.catalogEv (resolveOwner schema env.username) table,
         Ev.execSqlEv (build_create_table_sql schema table df),
         Ev.commitEv,
         Ev.successEv "Table created",
         Ev.execManyEv (insert_dataframe schema table df).sql
           (insert_dataframe schema table df).batch,
         Ev.commitEv,
         Ev.successEv "Data inserted successfully ✅"] := by
    simp [runUpload, tryBody, createPhase, insertPhase, hconn, hex, hddl, hdc, hins,
      hic, table_exists_query]
  refine ⟨htr, ?_, ?_, ?_⟩ <;>
    rw [htr] <;>
    simp [countEv, List.filter, isDDLEv, isInsertEv, isCommitEv]

/-- Witness for claim C2: the success trace on a concrete environment,
schema-less table T and a two-column, one-row DataFrame. -/
theorem C2_create_then_insert_two_commits_witness :
    runUpload envTableMissing "" "T" dfSample true
      = [Ev.connectEv,
         Ev.catalogEv (resolveOwner "" envTableMissing.username) "T",
         Ev.execSqlEv (build_create_table_sql "" "T" dfSample),
         Ev.commitEv,
         Ev.successEv "Table created",
         Ev.execManyEv (insert_dataframe "" "T" dfSample).sql
           (insert_dataframe "" "T" dfSample).batch,
         Ev.commitEv,
         Ev.successEv "Data inserted successfully ✅"] ∧
    countEv isDDLEv (runUpload envTableMissing "" "T" dfSample true) = 1 ∧
    countEv isInsertEv (runUpload envTableMissing "" "T" dfSample true) = 1 ∧
    countEv isCommitEv (runUpload envTableMissing "" "T" dfSample true) = 2 :=
  C2_create_then_insert_two_commits envTableMissing "" "T" dfSample rfl rfl rfl rfl rfl rfl

/-- Counterexample to claim C1 as stated: with an **existing** destination
table and create-if-missing = false, the upload does not abort — the batch
insert is attempted (and committed); no stop and no error box occur. -/
theorem C1_counterexample_insert_attempted :
    countEv isInsertEv (runUpload envTableExists "" "T" dfSample false) = 1 ∧
    runUpload envTableExists "" "T" dfSample false
      = [Ev.connectEv,
         Ev.catalogEv "SCOTT" "T",
         Ev.execManyEv (insert_dataframe "" "T" dfSample).sql
           (insert_dataframe "" "T" dfSample).batch,
         Ev.commitEv,
         Ev.successEv "Data inserted successfully ✅"] := by
  constructor
  · rfl
  · rfl

/-- Claim C1 as amended: with a destination table that does **not** exist
and create-if-missing = false, the upload reports "Table does not exist" and
stops before any insert attempt, issuing no DDL and no commit. -/
theorem C1_amended_missing_table_aborts (env : OracleEnv) (schema table : String)
    (df : DataFrame)
    (hconn : env.connRes = Except.ok ())
    (hex : env.existsRes = Except.ok false) :
    runUpload env schema table df false
      = [Ev.connectEv,
         Ev.catalogEv (resolveOwner schema env.username) table,
         Ev.errorBoxEv "Table does not exist",
         Ev.stopEv] ∧
    countEv isDDLEv (runUpload env schema table df false) = 0 ∧
    countEv isInsertEv (runUpload env schema table df false) = 0 ∧
    countEv isCommitEv (runUpload env schema table df false) = 0 := by
  have htr : runUpload env schema table df false
      = [Ev.connectEv,
         Ev.catalogEv (resolveOwner schema env.username) table,
         Ev.errorBoxEv "Table does not exist",
         Ev.stopEv] := by
    simp [runUpload, tryBody, createPhase, hconn, hex, table_exists_query]
  refine ⟨htr, ?_, ?_, ?_⟩ <;>
    rw [htr] <;>
    simp [countEv, List.filter, isDDLEv, isInsertEv, isCommitEv]

/-- Witness for the amended claim C1: the abort trace on a concrete
environment whose catalog lookup reports the table missing. -/
theorem C1_amended_missing_table_aborts_witness :
    runUpload envTableMissing "" "T" dfSample false
      = [Ev.connectEv,
         Ev.catalogEv (resolveOwner "" envTableMissing.username) "T",
         Ev.errorBoxEv "Table does not exist",
         Ev.stopEv] ∧
    countEv isDDLEv (runUpload envTableMissing "" "T" dfSample false) = 0 ∧
    countEv isInsertEv (runUpload envTableMissing "" "T" dfSample false) = 0 ∧
    countEv isCommitEv (runUpload envTableMissing "" "T" dfSample false) = 0 :=
  C1_amended_missing_table_aborts envTableMissing "" "T" dfSample rfl rfl

/-- Claim C8: every exception raised inside the upload trigger — of any of
the five kinds in the taxonomy, the quantification over `e` covering them
all — is caught at the single trigger boundary, logged
(`logger.exception("Upload failed")`), and surfaced to the user exactly once
as the error's plain-text string form, as the final event of the run (no
further transition follows); no operation is retried: connect, catalog
query, DDL and batch insert each occur at most once in the whole trace, and
the only `st.error` box of the run is the one carrying `str(e)`. -/
theorem C8_errors_caught_logged_surfaced (env : OracleEnv) (schema table : String)
    (df : DataFrame) (cim : Bool) (e : PyErr)
    (h : (tryBody env schema table df cim).2 = Flow.raised e) :
    runUpload env schema table df cim
      = (tryBody env schema table df cim).1
        ++ [Ev.logExcEv "Upload failed", Ev.errorBoxEv e.msg] ∧
    countEv isErrorBoxEv (runUpload env schema table df cim) = 1 ∧
    countEv isConnectEv (runUpload env schema table df cim) ≤ 1 ∧
    countEv isCatalogEv (runUpload env schema table df cim) ≤ 1 ∧
    countEv isDDLEv (runUpload env schema table df cim) ≤ 1 ∧
    countEv isInsertEv (runUpload env schema table df cim) ≤ 1 := by
  have htr : runUpload env schema table df cim
      = (tryBody env schema table df cim).1
        ++ [Ev.logExcEv "Upload failed", Ev.errorBoxEv e.msg] := by
    simp [runUpload, h]
  obtain ⟨b1, b2, b3, b4, b5⟩ := tryBody_shape env schema table df cim
  have hbox : countEv isErrorBoxEv (tryBody env schema table df cim).1 = 0 :=
    b5 (by rw [h]; simp)
  have htail1 : countEv isErrorBoxEv [Ev.logExcEv "Upload failed", Ev.errorBoxEv e.msg] = 1 := rfl
  have htail2 : countEv isConnectEv [Ev.logExcEv "Upload failed", Ev.errorBoxEv e.msg] = 0 := rfl
  have htail3 : countEv isCatalogEv [Ev.logExcEv "Upload failed", Ev.errorBoxEv e.msg] = 0 := rfl
  have htail4 : countEv isDDLEv [Ev.logExcEv "Upload failed", Ev.errorBoxEv e.msg] = 0 := rfl
  have htail5 : countEv isInsertEv [Ev.logExcEv "Upload failed", Ev.errorBoxEv e.msg] = 0 := rfl
  refine ⟨htr, ?_, ?_, ?_, ?_, ?_⟩ <;>
    rw [htr, countEv_append] <;>
    omega

/-- Witness for claim C8: a concrete run whose batched insert raises an
`InsertError`; the trace ends with the log write and the error box carrying
the error's string form. -/
theorem C8_errors_caught_logged_surfaced_witness :
    runUpload envInsertFails "" "T" dfSample true
      = (tryBody envInsertFails "" "T" dfSample true).1
        ++ [Ev.logExcEv "Upload failed",
            Ev.errorBoxEv (PyErr.mk ErrKind.insertErr "ORA-01400: cannot insert NULL").msg] ∧
    countEv isErrorBoxEv (runUpload envInsertFails "" "T" dfSample true) = 1 ∧
    countEv isConnectEv (runUpload envInsertFails "" "T" dfSample true) ≤ 1 ∧
    countEv isCatalogEv (runUpload envInsertFails "" "T" dfSample true) ≤ 1 ∧
    countEv isDDLEv (runUpload envInsertFails "" "T" dfSample true) ≤ 1 ∧
    countEv isInsertEv (runUpload envInsertFails "" "T" dfSample true) ≤ 1 :=
  C8_errors_caught_logged_surfaced envInsertFails "" "T" dfSample true
    (PyErr.mk ErrKind.insertErr "ORA-01400: cannot insert NULL") rfl

/-! ## Claim theorem: the frame property of `sanitize_columns` -/

/-- Claim C10: `sanitize_columns` returns a new DataFrame whose column names
are `sanitize_identifier` applied to each original name in order, with all
cell values preserved, and leaves the input DataFrame object in the store
entirely unchanged (the copy is a fresh object, not the argument). -/
theorem C10_sanitize_columns_frame (s : DFStore) (r : Nat) (h : r < s.length) :
    (sanitize_columns s r).2 = s.length ∧
    (sanitize_columns s r).1.getD r emptyDF = s.getD r emptyDF ∧
    (sanitize_columns s r).1.getD (sanitize_columns s r).2 emptyDF
      = renameSanitized (s.getD r emptyDF) ∧
    ((sanitize_columns s r).1.getD (sanitize_columns s r).2 emptyDF).columns
      = (s.getD r emptyDF).columns.map sanitize_identifier ∧
    ((sanitize_columns s r).1.getD (sanitize_columns s r).2 emptyDF).rows
      = (s.getD r emptyDF).rows := by
  have hx : (s ++ [s.getD r emptyDF]).getD s.length emptyDF = s.getD r emptyDF := by
    simp [List.getD]
  have hset : (sanitize_columns s r).1
      = (s ++ [s.getD r emptyDF]).set s.length (renameSanitized (s.getD r emptyDF)) := by
    simp [sanitize_columns, copyDF, hx]
  have h2 : (sanitize_columns s r).2 = s.length := rfl
  have hold : (sanitize_columns s r).1.getD r emptyDF = s.getD r emptyDF := by
    rw [hset]
    have hne : s.length ≠ r := Nat.ne_of_gt h
    simp [List.getD, List.getElem?_set_ne hne, List.getElem?_append_left h]
  have hnew : (sanitize_columns s r).1.getD (sanitize_columns s r).2 emptyDF
      = renameSanitized (s.getD r emptyDF) := by
    rw [hset]
    have hlt : s.length < (s ++ [s.getD r emptyDF]).length := by simp
    simp [h2, List.getD, List.getElem?_set_self, hlt]
  refine ⟨h2, hold, hnew, ?_, ?_⟩
  · rw [hnew]
    simp [renameSanitized, DataFrame.columns, List.map_map, Function.comp]
  · rw [hnew]
    rfl

/-- Witness for claim C10: the frame property on a one-object store holding
the sample DataFrame. -/
theorem C10_sanitize_columns_frame_witness :
    0 < ([dfSample] : DFStore).length ∧
    ((sanitize_columns [dfSample] 0).2 = ([dfSample] : DFStore).length ∧
     (sanitize_columns [dfSample] 0).1.getD 0 emptyDF = ([dfSample] : DFStore).getD 0 emptyDF ∧
     (sanitize_columns [dfSample] 0).1.getD (sanitize_columns [dfSample] 0).2 emptyDF
       = renameSanitized (([dfSample] : DFStore).getD 0 emptyDF) ∧
     ((sanitize_columns [dfSample] 0).1.getD (sanitize_columns [dfSample] 0).2 emptyDF).columns
       = (([dfSample] : DFStore).getD 0 emptyDF).columns.map sanitize_identifier ∧
     ((sanitize_columns [dfSample] 0).1.getD (sanitize_columns [dfSample] 0).2 emptyDF).rows
       = (([dfSample] : DFStore).getD 0 emptyDF).rows) :=
  ⟨by decide, C10_sanitize_columns_frame [dfSample] 0 (by decide)⟩

end ETL
